import Mathlib

/-!
Verification development for the receipt-scanner client.

The repository has two source files with real logic:
* `app/_layout.tsx` — the authentication session lifecycle (`AuthProvider`
  with a startup token-load effect, a token-exchange effect reacting to the
  OAuth redirect, `signIn`, `signOut`, and the `AuthGate` auto-sign-in gate);
* `app/(tabs)/index.tsx` — the batch upload pipeline (`handleUploadAll`
  draining the `selectedImages` queue sequentially against the backend).

Each effect is embedded as a pure state-transition function.  External
collaborators (SecureStore reads/writes, the token-exchange HTTP call, the
profile fetch, the per-item upload `fetch`) are passed in as explicit outcome
parameters, so every possible success/failure interleaving the runtime could
produce is a concrete input to the Lean function.
-/

/-- Session data held in React state (`AuthState`, `app/_layout.tsx` lines
27–32): the bearer token plus optional profile enrichment fields. -/
structure AuthState where
  accessToken : String
  displayName : Option String := none
  givenName : Option String := none
  surname : Option String := none
deriving Repr, DecidableEq

/-- The mutable world of `AuthProvider`: the two React state cells
(`authState`, `loading`) plus the content of the SecureStore slot under the
key `accessToken`. -/
structure ProviderState where
  authState : Option AuthState
  loading : Bool
  storedToken : Option String
deriving Repr, DecidableEq

/-- Provider state at construction time (`useState(null)`, `useState(true)`),
with a given SecureStore content. -/
def initProviderState (stored : Option String) : ProviderState :=
  { authState := none, loading := true, storedToken := stored }

/-- Startup load effect (`app/_layout.tsx` lines 55–68).
`readFails` is true when `SecureStore.getItemAsync` rejects; the source wraps
the read in try/catch (the catch only logs), and the `finally` block always
sets `loading := false`.  `if (storedToken)` is a JavaScript truthiness test,
so the empty string behaves like an absent token.  The second component lists
the network requests issued by the effect body: the source effect performs
none.  Totality of this function over all inputs (including `readFails =
true`) embeds the fact that the effect never throws to its caller. -/
def loadTokenEffect (st : ProviderState) (readFails : Bool) :
    ProviderState × List String :=
  if readFails then ({ st with loading := false }, [])
  else
    match st.storedToken with
    | none => ({ st with loading := false }, [])
    | some t =>
      if t = "" then ({ st with loading := false }, [])
      else ({ st with authState := some { accessToken := t }, loading := false }, [])

/-- Outcome of `AuthSession.exchangeCodeAsync` (`app/_layout.tsx` lines
99–109): either a token result carrying `accessToken`, or a thrown error
(non-success HTTP response or transport failure). -/
inductive ExchangeResult
  | ok (accessToken : String)
  | err
deriving Repr, DecidableEq

/-- Outcome of the Microsoft Graph `/me` fetch plus `profileRes.json()`
(`app/_layout.tsx` lines 120–126): `ok` when an HTTP response arrived and its
body parsed as JSON (each profile field independently present or absent —
the source never checks `profileRes.ok`); `err` when the fetch threw
(transport failure) or the body was unparsable (`json()` threw). -/
inductive ProfileFetchResult
  | ok (displayName givenName surname : Option String)
  | err
deriving Repr, DecidableEq

/-- Token-exchange effect (`app/_layout.tsx` lines 91–150).  Guards: the
effect returns early unless the auth response exists with type `success`
(`respSuccess`) and discovery is resolved (`discoveryReady`).  The body runs
under one try/catch whose catch only logs.  Order of operations in the
source: exchange, then (if the token is truthy, i.e. non-empty) profile
fetch, then `profileRes.json()`, then `SecureStore.setItemAsync`
(`saveFails` true when it rejects), then `setAuthState`.  Any throw before
`setAuthState` lands in the catch and leaves both React state and the store
untouched. -/
def handleAuthResponse (st : ProviderState) (respSuccess discoveryReady : Bool)
    (exch : ExchangeResult) (prof : ProfileFetchResult) (saveFails : Bool) :
    ProviderState :=
  if !respSuccess then st
  else if !discoveryReady then st
  else
    match exch with
    | .err => st
    | .ok tok =>
      if tok = "" then st
      else
        match prof with
        | .err => st
        | .ok d g s =>
          if saveFails then st
          else
            { st with
              storedToken := some tok,
              authState := some { accessToken := tok, displayName := d,
                                  givenName := g, surname := s } }

/-- `signOut` (`app/_layout.tsx` lines 161–164): `setAuthState(null)` runs
first, then `await SecureStore.deleteItemAsync("accessToken")` with no
try/catch around it.  `deleteFails` is true when the delete rejects; the
returned Bool records whether the `signOut` promise itself rejects (the
error reaches the caller). -/
def signOut (st : ProviderState) (deleteFails : Bool) : ProviderState × Bool :=
  let st1 := { st with authState := none }
  if deleteFails then (st1, true)
  else ({ st1 with storedToken := none }, false)

/-- What the provider does at startup with the configuration values
(`app/_layout.tsx` lines 20–21, 70–88): either fail with a configuration
error, or proceed into discovery / the auth request with an issuer string
and a client id.  The `configError` constructor exists to state the spec's
demanded outcome; the source has no such failure path. -/
inductive StartupOutcome
  | configError
  | proceed (issuer : String) (clientId : String)
deriving Repr, DecidableEq

/-- The issuer argument handed to `AuthSession.useAutoDiscovery`
(`app/_layout.tsx` lines 70–74): a template literal when `TENANT_ID` is set,
and the template literal string `undefined` (backquoted in the source) when
it is absent. -/
def issuerArg : Option String → String
  | some t => "https://login.microsoftonline.com/" ++ t ++ "/v2.0"
  | none => "undefined"

/-- The client id handed to `AuthSession.useAuthRequest`
(`app/_layout.tsx` line 82): `CLIENT_ID ?? ""`. -/
def clientIdArg (c : Option String) : String := c.getD ""

/-- Startup behavior of `AuthProvider` as a function of the two environment
values: the source unconditionally proceeds, with no validation of either. -/
def startup (tenantId clientId : Option String) : StartupOutcome :=
  .proceed (issuerArg tenantId) (clientIdArg clientId)

/-- State of the `AuthGate` component (`app/_layout.tsx` lines 173–208):
the `autoStarted` flag plus a count of auto-initiated `signIn` calls. -/
structure GateState where
  autoStarted : Bool
  signInCalls : Nat
deriving Repr, DecidableEq

/-- One run of the `AuthGate` effect body at a render where it fires
(`app/_layout.tsx` lines 177–182): `if (!loading && !authState &&
!autoStarted) { setAutoStarted(true); signIn()... }`. -/
def gateObserve (g : GateState) (loading : Bool) (authState : Option AuthState) :
    GateState :=
  if !loading && authState.isNone && !g.autoStarted then
    { autoStarted := true, signInCalls := g.signInCalls + 1 }
  else g

/-- The gate over a whole process lifetime: the sequence of
`(loading, authState)` observations delivered by successive renders
(re-renders, state restorations, sign-outs), folded through the effect. -/
def gateRun (g : GateState) : List (Bool × Option AuthState) → GateState
  | [] => g
  | (l, a) :: rest => gateRun (gateObserve g l a) rest

/-- An observation that qualifies for auto-sign-in: loading finished and no
session present. -/
def triggers (ob : Bool × Option AuthState) : Bool := !ob.1 && ob.2.isNone

/-- The session-validity predicate of the data-model invariant: every session
held in state has a non-empty access token. -/
def validAuth (o : Option AuthState) : Prop := ∀ a ∈ o, a.accessToken ≠ ""

/-- Outcome of one `fetch(BACKEND_UPLOAD_URL, ...)` call
(`app/(tabs)/index.tsx` lines 123–129): an HTTP response with a status code,
or a thrown transport error. -/
inductive FetchOutcome
  | http (status : Nat)
  | netError
deriving Repr, DecidableEq

/-- `response.ok` of the Fetch standard: status in the inclusive range
200–299. -/
def isOkStatus (s : Nat) : Bool := 200 ≤ s && s ≤ 299

/-- Aggregate view of one run of the upload loop: how many POSTs were
issued, how many responses were ok, the statuses of the non-ok responses in
order, and whether a transport exception escaped the loop. -/
structure RunOutcome where
  attempted : Nat
  okCount : Nat
  failedStatuses : List Nat
  aborted : Bool
deriving Repr, DecidableEq

/-- The `for (const uri of selectedImages)` loop of `handleUploadAll`
(`app/(tabs)/index.tsx` lines 113–139), with the outcome of the i-th fetch
given by `respond i`.  A non-ok response logs and `continue`s; an ok response
increments `successCount`; a thrown fetch propagates out of the loop
(nothing after it runs), which the `aborted` flag records. -/
def uploadLoop (respond : Nat → FetchOutcome) :
    List String → Nat → RunOutcome
  | [], _ => { attempted := 0, okCount := 0, failedStatuses := [], aborted := false }
  | _ :: rest, i =>
    match respond i with
    | .netError => { attempted := 1, okCount := 0, failedStatuses := [], aborted := true }
    | .http s =>
      let r := uploadLoop respond rest (i + 1)
      if isOkStatus s then
        { r with attempted := r.attempted + 1, okCount := r.okCount + 1 }
      else
        { r with attempted := r.attempted + 1, failedStatuses := s :: r.failedStatuses }

/-- Status message shown after an upload attempt (`app/(tabs)/index.tsx`
lines 141–153), one constructor per distinct string the source can set. -/
inductive UploadStatus
  | uploadedAll (n : Nat)
  | allFailed
  | mixed (succeeded total : Nat)
  | uploadError
deriving Repr, DecidableEq

/-- The React state of `HomeScreen` that `handleUploadAll` touches
(`app/(tabs)/index.tsx` lines 36–38). -/
structure ScreenState where
  selectedImages : List String
  isUploading : Bool
  uploadStatus : Option UploadStatus
deriving Repr, DecidableEq

/-- `handleUploadAll` (`app/(tabs)/index.tsx` lines 104–157).  An empty
queue returns before any state change or network call.  Otherwise the loop
runs; a transport exception lands in the catch (generic failure status,
queue untouched); on completion the tri-state summary runs: all ok clears
the queue, none ok or a mix leaves it unchanged.  The `finally` block makes
the final `isUploading` false on every non-empty path.  The second component
is the number of POSTs issued. -/
def handleUploadAll (st : ScreenState) (respond : Nat → FetchOutcome) :
    ScreenState × Nat :=
  if st.selectedImages.length = 0 then (st, 0)
  else
    let r := uploadLoop respond st.selectedImages 0
    if r.aborted then
      ({ st with isUploading := false, uploadStatus := some .uploadError }, r.attempted)
    else if r.okCount = st.selectedImages.length then
      ({ selectedImages := [], isUploading := false,
         uploadStatus := some (.uploadedAll r.okCount) }, r.attempted)
    else if r.okCount = 0 then
      ({ st with isUploading := false, uploadStatus := some .allFailed }, r.attempted)
    else
      ({ st with
         isUploading := false
         uploadStatus := some (.mixed r.okCount st.selectedImages.length) },
       r.attempted)

/-- The aggregate result of one batch in the spec's vocabulary, read off a
run of the loop: `total` is the batch size, `succeeded` the ok count,
`failedCount` the number of per-item failure records the run produced. -/
structure BatchResult where
  total : Nat
  succeeded : Nat
  failedCount : Nat
deriving Repr, DecidableEq

/-- `BatchResult` of running `handleUploadAll`'s loop over a queue. -/
def batchResult (items : List String) (respond : Nat → FetchOutcome) :
    BatchResult :=
  let r := uploadLoop respond items 0
  { total := items.length, succeeded := r.okCount,
    failedCount := r.failedStatuses.length }

/-! ### Helper lemmas about the upload loop -/

/-- When every fetch returns an HTTP response (no transport exception), the
loop visits every item: it never aborts, issues one POST per item, and every
item ends up counted either as ok or as a recorded failure. -/
theorem uploadLoop_http_spec (respond : Nat → FetchOutcome)
    (hnet : ∀ i, respond i ≠ FetchOutcome.netError) :
    ∀ (items : List String) (start : Nat),
      (uploadLoop respond items start).aborted = false ∧
      (uploadLoop respond items start).attempted = items.length ∧
      (uploadLoop respond items start).okCount +
        (uploadLoop respond items start).failedStatuses.length = items.length := by
  intro items
  induction items with
  | nil => intro start; exact ⟨rfl, rfl, rfl⟩
  | cons u rest ih =>
    intro start
    obtain ⟨h1, h2, h3⟩ := ih (start + 1)
    cases hr : respond start with
    | netError => exact absurd hr (hnet start)
    | http s =>
      by_cases hok : isOkStatus s = true
      · exact ⟨by simp [uploadLoop, hr, hok, h1], by simp [uploadLoop, hr, hok, h2],
          by simp [uploadLoop, hr, hok]; omega⟩
      · exact ⟨by simp [uploadLoop, hr, hok, h1], by simp [uploadLoop, hr, hok, h2],
          by simp [uploadLoop, hr, hok]; omega⟩

/-- When no fetch throws, every non-2xx response is recorded in the failure
list of the run. -/
theorem uploadLoop_records (respond : Nat → FetchOutcome)
    (hnet : ∀ i, respond i ≠ FetchOutcome.netError) :
    ∀ (items : List String) (start k s : Nat), k < items.length →
      respond (start + k) = FetchOutcome.http s → isOkStatus s = false →
      s ∈ (uploadLoop respond items start).failedStatuses := by
  intro items
  induction items with
  | nil => intro start k s hk _ _; simp at hk
  | cons u rest ih =>
    intro start k s hk hr hok
    cases hresp : respond start with
    | netError => exact absurd hresp (hnet start)
    | http s0 =>
      cases k with
      | zero =>
        rw [Nat.add_zero, hresp] at hr
        injection hr with h
        subst h
        simp [uploadLoop, hresp, hok]
      | succ k' =>
        have hr' : respond (start + 1 + k') = FetchOutcome.http s := by
          rw [show start + 1 + k' = start + (k' + 1) by omega]
          exact hr
        have hk' : k' < rest.length := by
          simpa using Nat.lt_of_succ_lt_succ (by simpa using hk)
        have hmem := ih (start + 1) k' s hk' hr' hok
        by_cases hok0 : isOkStatus s0 = true
        · simp [uploadLoop, hresp, hok0, hmem]
        · simp [uploadLoop, hresp, hok0, hmem]

/-- For a non-aborted run over a non-empty queue, the queue after
`handleUploadAll` is empty exactly when every item succeeded, and unchanged
otherwise. -/
theorem handleUploadAll_queue (st : ScreenState) (respond : Nat → FetchOutcome)
    (hlen : ¬ st.selectedImages.length = 0)
    (hab : (uploadLoop respond st.selectedImages 0).aborted = false) :
    (handleUploadAll st respond).1.selectedImages =
      if (uploadLoop respond st.selectedImages 0).okCount = st.selectedImages.length
      then [] else st.selectedImages := by
  by_cases h : (uploadLoop respond st.selectedImages 0).okCount = st.selectedImages.length
  · simp [handleUploadAll, hlen, hab, h]
  · by_cases h0 : (uploadLoop respond st.selectedImages 0).okCount = 0
    · have hlen0 : ¬ (0 = st.selectedImages.length) := fun hh => hlen hh.symm
      simp [handleUploadAll, hlen, hab, h, h0, hlen0]
    · simp [handleUploadAll, hlen, hab, h, h0]

/-- When a transport exception aborts the run, the item that threw (which is
part of the batch) never succeeded, so strictly fewer items than the whole
queue got an ok response: an aborted run can never present an all-succeeded
count. -/
theorem uploadLoop_aborted_okCount_lt (respond : Nat → FetchOutcome) :
    ∀ (items : List String) (start : Nat),
      (uploadLoop respond items start).aborted = true →
      (uploadLoop respond items start).okCount < items.length := by
  intro items
  induction items with
  | nil => intro start h; simp [uploadLoop] at h
  | cons u rest ih =>
    intro start h
    cases hr : respond start with
    | netError => simp [uploadLoop, hr]
    | http s =>
      by_cases hok : isOkStatus s = true
      · have hab : (uploadLoop respond rest (start + 1)).aborted = true := by
          simpa [uploadLoop, hr, hok] using h
        have hlt := ih (start + 1) hab
        simp [uploadLoop, hr, hok]
        omega
      · have hab : (uploadLoop respond rest (start + 1)).aborted = true := by
          simpa [uploadLoop, hr, hok] using h
        have hlt := ih (start + 1) hab
        simp [uploadLoop, hr, hok]
        omega

/-- In the aborted (catch) branch over a non-empty queue, `handleUploadAll`
leaves the queue untouched. -/
theorem handleUploadAll_aborted (st : ScreenState) (respond : Nat → FetchOutcome)
    (hlen : ¬ st.selectedImages.length = 0)
    (hab : (uploadLoop respond st.selectedImages 0).aborted = true) :
    (handleUploadAll st respond).1.selectedImages = st.selectedImages := by
  simp [handleUploadAll, hlen, hab]

/-! ### Claim theorems for the upload pipeline -/

/-- Claim C2, counterexample.  Queue `["a", "b"]` where the first POST
throws a transport error: `handleUploadAll` issues exactly one POST — the
second item is never attempted — and the run ends in the generic catch
status with no per-item failure record.  This falsifies, at a concrete
input, the claim that a transport exception is recorded as that item's
failure while iteration continues to the next item. -/
theorem upload_netError_aborts_remainder :
    (handleUploadAll
        { selectedImages := ["a", "b"], isUploading := false, uploadStatus := none }
        (fun i => if i = 0 then FetchOutcome.netError else FetchOutcome.http 200)).2 = 1 ∧
    ¬ (handleUploadAll
        { selectedImages := ["a", "b"], isUploading := false, uploadStatus := none }
        (fun i => if i = 0 then FetchOutcome.netError else FetchOutcome.http 200)).2 = 2 ∧
    (handleUploadAll
        { selectedImages := ["a", "b"], isUploading := false, uploadStatus := none }
        (fun i => if i = 0 then FetchOutcome.netError else FetchOutcome.http 200)).1.uploadStatus
      = some UploadStatus.uploadError := by decide

/-- Claim C2, amended.  As long as every fetch yields an HTTP response (no
transport exception), the loop never aborts, attempts every item of the
queue, counts every item either as succeeded or as a recorded failure, and
records the status of every non-2xx response; a transport exception, by
contrast, aborts the remainder of the batch (see the counterexample). -/
theorem upload_http_failures_continue (items : List String)
    (respond : Nat → FetchOutcome)
    (hnet : ∀ i, respond i ≠ FetchOutcome.netError) :
    (uploadLoop respond items 0).aborted = false ∧
    (uploadLoop respond items 0).attempted = items.length ∧
    (uploadLoop respond items 0).okCount +
      (uploadLoop respond items 0).failedStatuses.length = items.length ∧
    ∀ k s, k < items.length → respond k = FetchOutcome.http s →
      isOkStatus s = false → s ∈ (uploadLoop respond items 0).failedStatuses := by
  obtain ⟨h1, h2, h3⟩ := uploadLoop_http_spec respond hnet items 0
  refine ⟨h1, h2, h3, ?_⟩
  intro k s hk hr hok
  exact uploadLoop_records respond hnet items 0 k s hk (by simpa using hr) hok

/-- Witness for the amended claim C2, at queue `["a", "b"]` with every fetch
answering HTTP 500. -/
theorem upload_http_failures_continue_witness :
    (∀ i, (fun _ : Nat => FetchOutcome.http 500) i ≠ FetchOutcome.netError) ∧
    ((uploadLoop (fun _ : Nat => FetchOutcome.http 500) ["a", "b"] 0).aborted = false ∧
     (uploadLoop (fun _ : Nat => FetchOutcome.http 500) ["a", "b"] 0).attempted =
       (["a", "b"] : List String).length ∧
     (uploadLoop (fun _ : Nat => FetchOutcome.http 500) ["a", "b"] 0).okCount +
       (uploadLoop (fun _ : Nat => FetchOutcome.http 500) ["a", "b"] 0).failedStatuses.length =
       (["a", "b"] : List String).length ∧
     ∀ k s, k < (["a", "b"] : List String).length →
       (fun _ : Nat => FetchOutcome.http 500) k = FetchOutcome.http s →
       isOkStatus s = false →
       s ∈ (uploadLoop (fun _ : Nat => FetchOutcome.http 500) ["a", "b"] 0).failedStatuses) :=
  ⟨(fun _ h => nomatch h),
   upload_http_failures_continue ["a", "b"] (fun _ => FetchOutcome.http 500)
     (fun _ h => nomatch h)⟩

/-- Claim C4, counterexample.  With queue `["a", "b"]` and every fetch
throwing a transport error, the run records `succeeded = 0` and no failed
items, yet `total = 2`: the invariant `succeeded + failedCount = total`
fails because the abort leaves the second item with no outcome at all. -/
theorem batch_invariant_fails_on_netError :
    (batchResult ["a", "b"] fun _ => FetchOutcome.netError).succeeded +
        (batchResult ["a", "b"] fun _ => FetchOutcome.netError).failedCount ≠
      (batchResult ["a", "b"] fun _ => FetchOutcome.netError).total := by decide

/-- Claim C4, amended.  For every queue and every mix of per-item HTTP
outcomes (no transport exception anywhere in the batch), the aggregate
satisfies `succeeded + failedCount = total`. -/
theorem batch_invariant_http (items : List String) (respond : Nat → FetchOutcome)
    (hnet : ∀ i, respond i ≠ FetchOutcome.netError) :
    (batchResult items respond).succeeded + (batchResult items respond).failedCount =
      (batchResult items respond).total := by
  have h := (uploadLoop_http_spec respond hnet items 0).2.2
  simpa [batchResult] using h

/-- Witness for the amended claim C4, at queue `["a"]` with an HTTP 200
response. -/
theorem batch_invariant_http_witness :
    (∀ i, (fun _ : Nat => FetchOutcome.http 200) i ≠ FetchOutcome.netError) ∧
    (batchResult ["a"] (fun _ : Nat => FetchOutcome.http 200)).succeeded +
        (batchResult ["a"] (fun _ : Nat => FetchOutcome.http 200)).failedCount =
      (batchResult ["a"] (fun _ : Nat => FetchOutcome.http 200)).total :=
  ⟨(fun _ h => nomatch h),
   batch_invariant_http ["a"] (fun _ => FetchOutcome.http 200) (fun _ h => nomatch h)⟩

/-- Claim C3.  After `handleUploadAll` completes over a non-empty queue,
for every mix of per-item outcomes (HTTP statuses and transport exceptions
alike): if every item succeeded (`okCount`, the number of items that got a
2xx response, equals the batch size — which an aborted run can never reach,
since the throwing item is part of the batch and did not succeed) the queue
is cleared; if no item succeeded — which covers every-item-failed mixes,
including runs a transport error aborted — the queue is unchanged; if some
but not all succeeded, aborted or not, the queue is unchanged.  (The
embedding is sequential, matching the source's single-threaded model: the
batch is the entire queue at call time.) -/
theorem upload_queue_tristate (st : ScreenState) (respond : Nat → FetchOutcome)
    (hne : st.selectedImages ≠ []) :
    ((uploadLoop respond st.selectedImages 0).okCount = st.selectedImages.length →
      (handleUploadAll st respond).1.selectedImages = []) ∧
    ((uploadLoop respond st.selectedImages 0).okCount = 0 →
      (handleUploadAll st respond).1.selectedImages = st.selectedImages) ∧
    (0 < (uploadLoop respond st.selectedImages 0).okCount →
      (uploadLoop respond st.selectedImages 0).okCount < st.selectedImages.length →
      (handleUploadAll st respond).1.selectedImages = st.selectedImages) := by
  have hlen : ¬ st.selectedImages.length = 0 :=
    fun h => hne (List.length_eq_zero.mp h)
  refine ⟨?_, ?_, ?_⟩
  · intro h
    cases hab : (uploadLoop respond st.selectedImages 0).aborted with
    | true =>
      exact absurd h
        (Nat.ne_of_lt (uploadLoop_aborted_okCount_lt respond st.selectedImages 0 hab))
    | false =>
      rw [handleUploadAll_queue st respond hlen hab, if_pos h]
  · intro h
    cases hab : (uploadLoop respond st.selectedImages 0).aborted with
    | true => exact handleUploadAll_aborted st respond hlen hab
    | false =>
      have hno : ¬ (uploadLoop respond st.selectedImages 0).okCount =
          st.selectedImages.length := by omega
      rw [handleUploadAll_queue st respond hlen hab, if_neg hno]
  · intro h1 h2
    cases hab : (uploadLoop respond st.selectedImages 0).aborted with
    | true => exact handleUploadAll_aborted st respond hlen hab
    | false =>
      have hno : ¬ (uploadLoop respond st.selectedImages 0).okCount =
          st.selectedImages.length := by omega
      rw [handleUploadAll_queue st respond hlen hab, if_neg hno]

/-- Witness for claim C3, at the queue `["a", "b"]` with every fetch
throwing a transport error: a no-item-succeeded mix reached through the
abort path, where the queue stays unchanged. -/
theorem upload_queue_tristate_witness :
    (["a", "b"] : List String) ≠ [] ∧
    (((uploadLoop (fun _ : Nat => FetchOutcome.netError) ["a", "b"] 0).okCount =
        (["a", "b"] : List String).length →
      (handleUploadAll
          { selectedImages := ["a", "b"], isUploading := false, uploadStatus := none }
          (fun _ : Nat => FetchOutcome.netError)).1.selectedImages = []) ∧
     ((uploadLoop (fun _ : Nat => FetchOutcome.netError) ["a", "b"] 0).okCount = 0 →
      (handleUploadAll
          { selectedImages := ["a", "b"], isUploading := false, uploadStatus := none }
          (fun _ : Nat => FetchOutcome.netError)).1.selectedImages = ["a", "b"]) ∧
     (0 < (uploadLoop (fun _ : Nat => FetchOutcome.netError) ["a", "b"] 0).okCount →
      (uploadLoop (fun _ : Nat => FetchOutcome.netError) ["a", "b"] 0).okCount <
        (["a", "b"] : List String).length →
      (handleUploadAll
          { selectedImages := ["a", "b"], isUploading := false, uploadStatus := none }
          (fun _ : Nat => FetchOutcome.netError)).1.selectedImages = ["a", "b"])) :=
  ⟨(by decide),
   upload_queue_tristate
     { selectedImages := ["a", "b"], isUploading := false, uploadStatus := none }
     (fun _ => FetchOutcome.netError) (by decide)⟩

/-- Claim C10.  Calling `handleUploadAll` on an empty queue is a no-op: it
returns before touching the uploading flag, the status message or the
queue, and issues no network request. -/
theorem uploadAll_empty_noop (st : ScreenState) (respond : Nat → FetchOutcome)
    (h : st.selectedImages = []) :
    handleUploadAll st respond = (st, 0) := by
  simp [handleUploadAll, h]

/-- Witness for claim C10: an empty queue with a stale status message and
a fetch that would throw — the state (stale message included) is returned
untouched and zero POSTs are issued. -/
theorem uploadAll_empty_noop_witness :
    handleUploadAll
        { selectedImages := [], isUploading := false,
          uploadStatus := some UploadStatus.allFailed }
        (fun _ => FetchOutcome.netError) =
      ({ selectedImages := [], isUploading := false,
         uploadStatus := some UploadStatus.allFailed }, 0) :=
  uploadAll_empty_noop _ _ rfl

/-! ### Helper lemmas about the auth gate -/

/-- Once the `autoStarted` flag is set, the gate effect never fires again:
`gateObserve` is the identity. -/
theorem gateObserve_started (g : GateState) (h : g.autoStarted = true)
    (l : Bool) (a : Option AuthState) : gateObserve g l a = g := by
  simp [gateObserve, h]

/-- A gate whose flag is already set is inert over any observation
sequence. -/
theorem gateRun_started (obs : List (Bool × Option AuthState)) :
    ∀ g : GateState, g.autoStarted = true → gateRun g obs = g := by
  induction obs with
  | nil => intro g _; rfl
  | cons ob rest ih =>
    intro g h
    obtain ⟨l, a⟩ := ob
    simp only [gateRun, gateObserve_started g h]
    exact ih g h

/-- Counting auto-initiated sign-ins from an unset flag: exactly one if some
observation qualifies, none otherwise. -/
theorem gateRun_calls (obs : List (Bool × Option AuthState)) :
    ∀ n : Nat, (gateRun { autoStarted := false, signInCalls := n } obs).signInCalls =
      n + (if obs.any triggers = true then 1 else 0) := by
  induction obs with
  | nil => intro n; simp [gateRun]
  | cons ob rest ih =>
    intro n
    obtain ⟨l, a⟩ := ob
    simp only [gateRun]
    cases l with
    | true =>
      have hg : gateObserve { autoStarted := false, signInCalls := n } true a =
          { autoStarted := false, signInCalls := n } := by
        simp [gateObserve]
      rw [hg, ih n]
      simp [triggers]
    | false =>
      cases a with
      | none =>
        have hg : gateObserve { autoStarted := false, signInCalls := n } false none =
            { autoStarted := true, signInCalls := n + 1 } := by
          simp [gateObserve]
        rw [hg, gateRun_started rest _ rfl]
        simp [triggers]
      | some x =>
        have hg : gateObserve { autoStarted := false, signInCalls := n } false (some x) =
            { autoStarted := false, signInCalls := n } := by
          simp [gateObserve]
        rw [hg, ih n]
        simp [triggers]

/-! ### Claim theorems for the session lifecycle -/

/-- Claim C1, counterexample.  Token exchange succeeds with the non-empty
token `tok1`, then the profile fetch throws (transport failure or
unparsable body): because the source performs the profile fetch *before*
`SecureStore.setItemAsync` and `setAuthState`, the catch swallows the whole
tail — the resulting state is not `Authenticated`, and the token is not
persisted.  This falsifies the claim that profile-fetch failure degrades to
a token-only authenticated session. -/
theorem signIn_profile_err_not_authenticated :
    (handleAuthResponse { authState := none, loading := false, storedToken := none }
        true true (ExchangeResult.ok "tok1") ProfileFetchResult.err false).authState
      = none ∧
    (handleAuthResponse { authState := none, loading := false, storedToken := none }
        true true (ExchangeResult.ok "tok1") ProfileFetchResult.err false).storedToken
      = none ∧
    ¬ (handleAuthResponse { authState := none, loading := false, storedToken := none }
        true true (ExchangeResult.ok "tok1") ProfileFetchResult.err false).authState
      = some { accessToken := "tok1" } := by decide

/-- Claim C1, amended.  After a successful exchange of a non-empty token: if
the profile fetch throws, the effect aborts with state and store untouched
(sign-in silently fails); only when the profile response parses as JSON (and
the store write succeeds) does sign-in complete, persisting the token and
setting an authenticated session carrying exactly the fields the JSON
supplied. -/
theorem signIn_profile_outcome (st : ProviderState) (tok : String) (sv : Bool)
    (d g s : Option String) (htok : tok ≠ "") :
    handleAuthResponse st true true (ExchangeResult.ok tok) ProfileFetchResult.err sv
      = st ∧
    handleAuthResponse st true true (ExchangeResult.ok tok)
        (ProfileFetchResult.ok d g s) false =
      { st with
        storedToken := some tok
        authState := some { accessToken := tok, displayName := d,
                            givenName := g, surname := s } } := by
  constructor
  · simp [handleAuthResponse, htok]
  · simp [handleAuthResponse, htok]

/-- Witness for the amended claim C1, with token `tok1` and a profile JSON
carrying only `displayName`. -/
theorem signIn_profile_outcome_witness :
    ("tok1" : String) ≠ "" ∧
    (handleAuthResponse { authState := none, loading := false, storedToken := none }
        true true (ExchangeResult.ok "tok1") ProfileFetchResult.err false =
      { authState := none, loading := false, storedToken := none } ∧
     handleAuthResponse { authState := none, loading := false, storedToken := none }
        true true (ExchangeResult.ok "tok1")
        (ProfileFetchResult.ok (some "Ada") none none) false =
      { authState := some { accessToken := "tok1", displayName := some "Ada",
                            givenName := none, surname := none },
        loading := false, storedToken := some "tok1" }) :=
  ⟨(by decide),
   signIn_profile_outcome { authState := none, loading := false, storedToken := none }
     "tok1" false (some "Ada") none none (by decide)⟩

/-- Claim C5, counterexample.  With both configuration values absent, the
provider does not fail at startup: it proceeds, handing the literal issuer
string `undefined` (the source's backquoted template literal) to discovery
and the empty client id to the auth request — no `ConfigurationError`
outcome exists in the code. -/
theorem startup_missing_config_no_error :
    startup none none = StartupOutcome.proceed "undefined" "" ∧
    ¬ startup none none = StartupOutcome.configError := by decide

/-- Claim C5, amended.  Absence of the tenant or client identifier is never
a startup failure in the code: startup always proceeds, deferring the
breakage into the issuer string `undefined` (which discovery will then try
to fetch against) and an empty client id sent to the provider at runtime. -/
theorem startup_missing_config_proceeds (t c : Option String) :
    ¬ startup t c = StartupOutcome.configError ∧
    startup none c = StartupOutcome.proceed "undefined" (clientIdArg c) ∧
    startup t none = StartupOutcome.proceed (issuerArg t) "" := by
  refine ⟨?_, rfl, rfl⟩
  intro h
  exact StartupOutcome.noConfusion h

/-- Claim C6.  Neither the restore-on-start effect nor the token-exchange
effect can produce a session with an empty access token: both preserve the
invariant that any session held in state has a non-empty token (restore
guards with JavaScript truthiness, so `none` and `""` alike set nothing;
exchange guards the token the same way before building a session). -/
theorem no_empty_token_session (st : ProviderState) (rf rs dr sv : Bool)
    (ex : ExchangeResult) (pf : ProfileFetchResult)
    (hv : validAuth st.authState) :
    validAuth ((loadTokenEffect st rf).1.authState) ∧
    validAuth ((handleAuthResponse st rs dr ex pf sv).authState) := by
  constructor
  · cases rf with
    | true => simpa [loadTokenEffect] using hv
    | false =>
      cases hst : st.storedToken with
      | none => simpa [loadTokenEffect, hst] using hv
      | some t =>
        by_cases ht : t = ""
        · simpa [loadTokenEffect, hst, ht] using hv
        · intro a ha
          have hx : (loadTokenEffect st false).1.authState =
              some { accessToken := t } := by
            simp [loadTokenEffect, hst, ht]
          rw [hx, Option.mem_some_iff] at ha
          subst ha
          simpa using ht
  · cases rs with
    | false => simpa [handleAuthResponse] using hv
    | true =>
      cases dr with
      | false => simpa [handleAuthResponse] using hv
      | true =>
        cases ex with
        | err => simpa [handleAuthResponse] using hv
        | ok tok =>
          by_cases htok : tok = ""
          · simpa [handleAuthResponse, htok] using hv
          · cases pf with
            | err => simpa [handleAuthResponse, htok] using hv
            | ok d g s =>
              cases sv with
              | true => simpa [handleAuthResponse, htok] using hv
              | false =>
                intro a ha
                have hx : (handleAuthResponse st true true (ExchangeResult.ok tok)
                    (ProfileFetchResult.ok d g s) false).authState =
                    some { accessToken := tok, displayName := d,
                           givenName := g, surname := s } := by
                  simp [handleAuthResponse, htok]
                rw [hx, Option.mem_some_iff] at ha
                subst ha
                simpa using htok

/-- Witness for claim C6: the empty string stored in SecureStore and an
exchange returning the empty token both leave the (valid) empty session
state valid. -/
theorem no_empty_token_session_witness :
    validAuth (({ authState := none, loading := true, storedToken := some "" } :
      ProviderState).authState) ∧
    (validAuth ((loadTokenEffect
        { authState := none, loading := true, storedToken := some "" } false).1.authState) ∧
     validAuth ((handleAuthResponse
        { authState := none, loading := true, storedToken := some "" }
        true true (ExchangeResult.ok "") ProfileFetchResult.err false).authState)) :=
  ⟨(fun _ ha => nomatch ha),
   no_empty_token_session
     { authState := none, loading := true, storedToken := some "" }
     false true true false (ExchangeResult.ok "") ProfileFetchResult.err
     (fun _ ha => nomatch ha)⟩

/-- Claim C7.  Restore-on-start, from the construction-time provider state:
a present, non-empty stored token yields exactly that token as a session
with no profile fields; an absent token, or a read failure (the function is
total over the `readFails` input, embedding that the effect never throws),
leaves the session absent — and `loading` ends false in every case.  The
empty request list in each conclusion records that the effect body issues
no network call. -/
theorem restore_on_start (stored : Option String) (t : String) (ht : t ≠ "") :
    loadTokenEffect (initProviderState (some t)) false =
      ({ authState := some { accessToken := t }, loading := false,
         storedToken := some t }, []) ∧
    loadTokenEffect (initProviderState none) false =
      ({ authState := none, loading := false, storedToken := none }, []) ∧
    loadTokenEffect (initProviderState stored) true =
      ({ authState := none, loading := false, storedToken := stored }, []) := by
  refine ⟨?_, rfl, rfl⟩
  simp [loadTokenEffect, initProviderState, ht]

/-- Witness for claim C7, at the stored token `abc123`. -/
theorem restore_on_start_witness :
    ("abc123" : String) ≠ "" ∧
    (loadTokenEffect (initProviderState (some "abc123")) false =
      ({ authState := some { accessToken := "abc123" }, loading := false,
         storedToken := some "abc123" }, []) ∧
     loadTokenEffect (initProviderState none) false =
      ({ authState := none, loading := false, storedToken := none }, []) ∧
     loadTokenEffect (initProviderState none) true =
      ({ authState := none, loading := false, storedToken := none }, [])) :=
  ⟨(by decide), restore_on_start none "abc123" (by decide)⟩

/-- Claim C8.  Over any sequence of render observations delivered to the
gate in one process lifetime — re-renders, the post-`Initializing`
transition, authenticated phases, sign-outs and the unauthenticated periods
after them — the number of auto-initiated sign-ins is exactly one if some
observation shows loading finished with no session, and zero otherwise: the
first qualifying observation sets the flag, the flag is never reset (in
particular not by sign-out), and no later observation re-triggers. -/
theorem auto_signin_one_shot (obs : List (Bool × Option AuthState)) :
    (gateRun { autoStarted := false, signInCalls := 0 } obs).signInCalls =
      if obs.any triggers = true then 1 else 0 := by
  simpa using gateRun_calls obs 0

/-- Claim C9, counterexample.  When `SecureStore.deleteItemAsync` rejects,
the `signOut` promise rejects too (second component `true`): the source has
no try/catch around the delete, so the error is propagated to the caller,
not swallowed — and the stored credential survives. -/
theorem signOut_delete_error_propagates :
    (signOut { authState := some { accessToken := "tok" }, loading := false,
               storedToken := some "tok" } true).2 = true ∧
    (signOut { authState := some { accessToken := "tok" }, loading := false,
               storedToken := some "tok" } true).1.storedToken = some "tok" := by decide

/-- Claim C9, amended.  `setAuthState(null)` runs before the delete is
awaited, so the in-memory session is removed no matter how the delete
fares — the caller observes `Unauthenticated` regardless; the store is
wiped exactly when the delete succeeds, and a delete failure is propagated
(the promise rejects) rather than swallowed. -/
theorem signOut_always_clears_session (st : ProviderState) (deleteFails : Bool) :
    (signOut st deleteFails).1.authState = none ∧
    (signOut st false).1.storedToken = none ∧
    (signOut st deleteFails).2 = deleteFails := by
  cases deleteFails <;> simp [signOut]
